import Mathlib

/-!
Verification of the coxistai chatbot core: the two-stage educational-content
classifier (`src/modules/text_classifier.py`) and the model-tier router
(`src/modules/query.py`), shallowly embedded in Lean 4.

External effects (the OpenAI chat-completion API and the zero-shot
classification pipeline) are modelled as oracles passed in as function
arguments; Python `Optional[str]` becomes `Option String`, exceptions become
`Except`, and float scores become rationals.
-/

namespace CoxistAI

/-- `beginsWith sub s`: the char list `sub` is an initial segment of `s`. -/
def beginsWith : List Char → List Char → Bool
  | [], _ => true
  | _ :: _, [] => false
  | a :: as, b :: bs => a = b && beginsWith as bs

/-- `occursIn sub s`: `sub` occurs contiguously somewhere in `s`. -/
def occursIn (sub : List Char) : List Char → Bool
  | [] => beginsWith sub []
  | c :: rest => beginsWith sub (c :: rest) || occursIn sub rest

/-- Python's substring test `sub in s` (the `in` operator on `str`):
true iff `sub` occurs as a contiguous substring of `s`; the empty string
occurs in every string. -/
def pyIn (sub s : String) : Bool :=
  occursIn sub.data s.data

/-- Python's `str.lower` (ASCII range, which covers every keyword and trigger
phrase in the program). -/
def pyLower (s : String) : String :=
  ⟨s.data.map Char.toLower⟩

/-- Python's `str.isspace`-style whitespace set used by `str.split()` with no
arguments (ASCII part: space, tab, newline, vertical tab, form feed,
carriage return). -/
def pyIsSpace (c : Char) : Bool :=
  c = ' ' || c = '\t' || c = '\n' || c = '\x0b' || c = '\x0c' || c = '\r'

/-- Worker for `pySplit`: `cur` holds the current word reversed. -/
def pySplitAux : List Char → List Char → List String
  | [], cur => if cur.isEmpty then [] else [⟨cur.reverse⟩]
  | c :: rest, cur =>
    if pyIsSpace c then
      if cur.isEmpty then pySplitAux rest []
      else (⟨cur.reverse⟩ : String) :: pySplitAux rest []
    else pySplitAux rest (c :: cur)

/-- Python's `str.split()` with no arguments: split on runs of whitespace and
drop empty pieces. -/
def pySplit (s : String) : List String :=
  pySplitAux s.data []

/-! ## text_classifier.py -/

/-- `NON_EDU_KEYWORDS` from `src/modules/text_classifier.py`. -/
def NON_EDU_KEYWORDS : List String := [
  "movie", "theft", "robbery", "netflix", "watch", "download", "shopping", "travel",
  "celebrity", "repair my", "fix my", "broken", "not working", "how much to repair",
  "where to fix", "price of", "how much does", "cost of", "which phone", "which mobile",
  "which game", "best ice cream", "recommend a", "which brand", "better option",
  "should I buy", "top rated"
]

/-- `EDU_KEYWORDS` from `src/modules/text_classifier.py`. -/
def EDU_KEYWORDS : List String := [
  "explain", "how", "science", "language", "history", "scientific", "logic",
  "architecture", "design principles", "engineering", "teach me", "learning",
  "pedagogy", "types of", "list of", "classification of", "define", "difference between"
]

/-- The first candidate label built inside `is_educational`. -/
def edu_label : String :=
  "educational: factual knowledge, explanations, technology, critical thinking, science, maths, sports, coding, general knowledge, or academic concepts"

/-- The second candidate label built inside `is_educational`. -/
def non_edu_label : String :=
  "non-educational: requests product comparisons, unsafe, Consumer Product Advice, shopping advice, entertainment, random_fun, plant_motivation, absurd_request, gaming, or personal opinions"

/-- The `labels` list passed to the zero-shot pipeline. -/
def zero_shot_labels : List String := [edu_label, non_edu_label]

/-- Result of the zero-shot pipeline call: labels ordered by descending score
with a parallel score list. -/
structure ClassifierResult where
  labels : List String
  scores : List ℚ
  deriving Repr, DecidableEq

/-- The body of the zero-shot branch of `is_educational`:
`if "educational" in result['labels'][0] and result['scores'][0] > 0.85`.
Indexing an empty list raises (`Except.error`), and Python's `and`
short-circuits, so `scores` is only indexed when the substring test passed. -/
def zero_shot_check (result : ClassifierResult) : Except String Bool :=
  match result.labels with
  | [] => Except.error "IndexError"
  | l0 :: _ =>
    if pyIn "educational" l0 then
      match result.scores with
      | [] => Except.error "IndexError"
      | s0 :: _ => Except.ok (decide (s0 > mkRat 85 100))
    else Except.ok false

/-- `is_educational` from `src/modules/text_classifier.py`. The zero-shot
pipeline is the oracle `classify` (taking the question and the candidate
labels); any error it raises, and any error raised while inspecting its
result, is caught and resolved to `true`. A `none` question models Python
`None`; `not question` is true for both `None` and `""`. -/
def is_educational (classify : String → List String → Except String ClassifierResult)
    (question : Option String) : Bool :=
  match question with
  | none => false
  | some q =>
    if q = "" then false
    else
      let question_lower := pyLower q
      if NON_EDU_KEYWORDS.any (fun keyword => pyIn keyword question_lower) then false
      else if EDU_KEYWORDS.any (fun keyword => pyIn keyword question_lower) then true
      else
        match classify q zero_shot_labels with
        | Except.error _ => true
        | Except.ok result =>
          match zero_shot_check result with
          | Except.error _ => true
          | Except.ok b => b

/-! ## query.py -/

/-- The `SmartDeepSeek` instance state set up by `__init__`. -/
structure SmartDeepSeek where
  api_key : String
  free_model : String
  paid_model : String
  reason_model : String
  complexity_threshold : Nat
  dissatisfaction_triggers : List String
  deriving Repr, DecidableEq

/-- The literal dissatisfaction trigger list assigned in `__init__`. -/
def dissatisfaction_trigger_list : List String :=
  ["not satisfied", "explain better", "more detail", "incomplete answer"]

/-- `SmartDeepSeek.__init__`: raises `ValueError("API key is required.")` when
`api_key` is falsy (absent/`None` or `""`); otherwise builds the instance with
the fixed tier names, threshold 15 and trigger list. -/
def mkSmartDeepSeek : Option String → Except String SmartDeepSeek
  | none => Except.error "API key is required."
  | some k =>
    if k = "" then Except.error "API key is required."
    else Except.ok
      { api_key := k
        free_model := "gpt-3.5-turbo"
        paid_model := "gpt-4o-mini"
        reason_model := "gpt-4o"
        complexity_threshold := 15
        dissatisfaction_triggers := dissatisfaction_trigger_list }

/-- The `technical_terms` list local to `needs_paid_model`. -/
def technical_terms : List String :=
  ["explain in detail", "step-by-step", "prove that", "compare and contrast"]

/-- `SmartDeepSeek.needs_paid_model`: dissatisfaction triggers in the lowered
previous response, then word count vs threshold, then technical terms in the
lowered question. -/
def needs_paid_model (sd : SmartDeepSeek) (question : String)
    (previous_response : String) : Bool :=
  let question_lower := pyLower question
  if sd.dissatisfaction_triggers.any
      (fun trigger => pyIn trigger (pyLower previous_response)) then true
  else if (pySplit question).length > sd.complexity_threshold then true
  else if technical_terms.any (fun term => pyIn term question_lower) then true
  else false

/-- A chat message (`{"role": ..., "content": ...}`). -/
structure Message where
  role : String
  content : String
  deriving Repr, DecidableEq

/-- The `messages` list built by `query_model`: the system prompt leads when
it is truthy (present and non-empty), then the user question. -/
def build_messages (question : String) (system_prompt : Option String) :
    List Message :=
  (match system_prompt with
   | some sp => if sp = "" then [] else [⟨"system", sp⟩]
   | none => []) ++ [⟨"user", question⟩]

/-- One chat-completion API call as issued by `query_model` (model plus the
message list; temperature 0.5 and the 2000-token cap are fixed constants not
needed by any claim). -/
structure ApiCall where
  model : String
  messages : List Message
  deriving Repr, DecidableEq

/-- The chat-completion oracle: `none` models an exception (or a `None`
`message.content`), which `query_model` catches and turns into `None`. -/
def query_model (api : ApiCall → Option String) (model question : String)
    (system_prompt : Option String) : Option String :=
  api ⟨model, build_messages question system_prompt⟩

/-- Python truthiness of an `Optional[str]`: `None` and `""` are falsy. -/
def truthy : Option String → Bool
  | none => false
  | some s => s ≠ ""

/-- The fixed apology string returned when every attempted call failed. -/
def apology : String :=
  "I apologize, but I encountered an error while generating a response."

/-- `response or apology`: the final statement of `get_response`. -/
def or_apology : Option String → String
  | none => apology
  | some s => if s = "" then apology else s

/-- `SmartDeepSeek.get_response`, instrumented to also return the list of API
calls issued in order: escalate via `needs_paid_model`; on the escalated path
try the paid model and, if the response is falsy, retry once with the reason
model; otherwise a single free-model call; finally `response or apology`. -/
def get_response (api : ApiCall → Option String) (sd : SmartDeepSeek)
    (question : String) (previous_response : String)
    (system_prompt : Option String) : String × List ApiCall :=
  if needs_paid_model sd question previous_response then
    let call1 : ApiCall := ⟨sd.paid_model, build_messages question system_prompt⟩
    let r1 := api call1
    if truthy r1 then (or_apology r1, [call1])
    else
      let call2 : ApiCall := ⟨sd.reason_model, build_messages question system_prompt⟩
      (or_apology (api call2), [call1, call2])
  else
    let call : ApiCall := ⟨sd.free_model, build_messages question system_prompt⟩
    (or_apology (api call), [call])

/-- A chat-completion oracle on which every call fails. -/
def apiNone : ApiCall → Option String := fun _ => none

/-- The instance built from the credential "key". -/
def sdDefault : SmartDeepSeek :=
  { api_key := "key"
    free_model := "gpt-3.5-turbo"
    paid_model := "gpt-4o-mini"
    reason_model := "gpt-4o"
    complexity_threshold := 15
    dissatisfaction_triggers := dissatisfaction_trigger_list }

end CoxistAI

namespace CoxistAI

/-! ## Helper lemmas -/

/-- A successful construction fully determines the instance: every field
except the credential is a fixed literal. -/
theorem mkSmartDeepSeek_ok {k : String} {sd : SmartDeepSeek}
    (hk : mkSmartDeepSeek (some k) = Except.ok sd) :
    sd = { api_key := k
           free_model := "gpt-3.5-turbo"
           paid_model := "gpt-4o-mini"
           reason_model := "gpt-4o"
           complexity_threshold := 15
           dissatisfaction_triggers := dissatisfaction_trigger_list } := by
  unfold mkSmartDeepSeek at hk
  by_cases h : k = "" <;> simp [h] at hk
  exact hk.symm

/-- `response or apology` yields the apology exactly on falsy responses. -/
theorem or_apology_falsy {r : Option String} (h : truthy r = false) :
    or_apology r = apology := by
  cases r with
  | none => rfl
  | some s =>
    simp only [truthy, decide_eq_false_iff_not, ne_eq, not_not] at h
    simp [or_apology, h]

end CoxistAI

namespace CoxistAI

/-! ## Claim theorems -/

/-- C1: the spec requires the zero-shot fallback to return true only when the
top label is the educational one with score above 0.85; the code instead
tests the substring "educational" against the top label, and that substring
also occurs in the non-educational label. Evaluating the code on a classifier
result whose top label is the non-educational one with score 0.9 therefore
yields true, where both the spec and the code's own comment require false. -/
theorem c1_nonedu_top_label_high_score_gives_true :
    is_educational
        (fun _ _ => Except.ok ⟨[non_edu_label, edu_label], [mkRat 9 10, mkRat 1 10]⟩)
        (some "what is python") = true ∧
      pyIn "educational" non_edu_label = true := by
  constructor <;> decide

/-- C3: whenever some non-educational keyword occurs as a substring of the
lowercased text, is_educational returns false regardless of the classifier
and of any educational keywords also present, and the matching is plain
substring matching ("watching" matches the keyword "watch"). -/
theorem c3_non_edu_keyword_wins
    (classify : String → List String → Except String ClassifierResult)
    (q : String)
    (h : ∃ kw ∈ NON_EDU_KEYWORDS, pyIn kw (pyLower q) = true) :
    is_educational classify (some q) = false ∧ pyIn "watch" "watching" = true := by
  refine ⟨?_, by decide⟩
  by_cases hq : q = ""
  · simp [is_educational, hq]
  · have hany : NON_EDU_KEYWORDS.any (fun keyword => pyIn keyword (pyLower q)) = true :=
      List.any_eq_true.mpr (by simpa using h)
    simp [is_educational, hq, hany]

/-- Witness for C3 at the concrete input "I was watching a documentary",
whose lowercasing contains the non-educational keyword "watch" (inside
"watching") while also containing no educational short-circuit earlier. -/
theorem c3_non_edu_keyword_wins_witness :
    (∃ kw ∈ NON_EDU_KEYWORDS, pyIn kw (pyLower "I was watching a documentary") = true) ∧
      (is_educational (fun _ _ => Except.error "boom")
          (some "I was watching a documentary") = false ∧
        pyIn "watch" "watching" = true) :=
  ⟨⟨"watch", by decide, by decide⟩,
   c3_non_edu_keyword_wins _ "I was watching a documentary" ⟨"watch", by decide, by decide⟩⟩

/-- C7: when both keyword checks are inconclusive and the zero-shot call
raises, is_educational catches the error and returns true (fails open). -/
theorem c7_classifier_error_fails_open
    (classify : String → List String → Except String ClassifierResult)
    (q err : String)
    (hq : q ≠ "")
    (hnon : NON_EDU_KEYWORDS.any (fun keyword => pyIn keyword (pyLower q)) = false)
    (hedu : EDU_KEYWORDS.any (fun keyword => pyIn keyword (pyLower q)) = false)
    (herr : classify q zero_shot_labels = Except.error err) :
    is_educational classify (some q) = true := by
  simp [is_educational, hq, hnon, hedu, herr]

/-- Witness for C7 at the keyword-free input "zzz qqq" with a classifier
oracle that always raises. -/
theorem c7_classifier_error_fails_open_witness :
    ("zzz qqq" ≠ "") ∧
      NON_EDU_KEYWORDS.any (fun keyword => pyIn keyword (pyLower "zzz qqq")) = false ∧
      EDU_KEYWORDS.any (fun keyword => pyIn keyword (pyLower "zzz qqq")) = false ∧
      is_educational (fun _ _ => Except.error "boom") (some "zzz qqq") = true :=
  ⟨by decide, by decide, by decide,
   c7_classifier_error_fails_open (fun _ _ => Except.error "boom") "zzz qqq" "boom"
     (by decide) (by decide) (by decide) rfl⟩

/-- C9: for a null input and for the empty string, is_educational returns
false for every classifier oracle, so neither the keyword checks nor the
zero-shot call can influence (or be reached on) these inputs. -/
theorem c9_empty_or_null_input_false
    (classify : String → List String → Except String ClassifierResult) :
    is_educational classify none = false ∧ is_educational classify (some "") = false :=
  ⟨rfl, rfl⟩

end CoxistAI

namespace CoxistAI

/-- C2: for every constructed router instance, needs_paid_model returns true
iff a dissatisfaction trigger occurs in the lowercased previous response, or
the whitespace-split word count of the question exceeds 15, or a technical
trigger phrase occurs in the lowercased question. -/
theorem c2_needs_paid_model_iff (k : String) (sd : SmartDeepSeek)
    (hk : mkSmartDeepSeek (some k) = Except.ok sd)
    (question previous_response : String) :
    needs_paid_model sd question previous_response = true ↔
      ((∃ t ∈ dissatisfaction_trigger_list, pyIn t (pyLower previous_response) = true) ∨
        (pySplit question).length > 15 ∨
        (∃ t ∈ technical_terms, pyIn t (pyLower question) = true)) := by
  rcases mkSmartDeepSeek_ok hk with rfl
  simp only [needs_paid_model, List.any_eq_true]
  split_ifs with h1 h2 h3 <;> simp_all

/-- Witness for C2: a short question with a dissatisfied previous response
escalates. -/
theorem c2_needs_paid_model_iff_witness :
    mkSmartDeepSeek (some "key") = Except.ok sdDefault ∧
      (needs_paid_model sdDefault "hi" "I am not satisfied" = true ↔
        ((∃ t ∈ dissatisfaction_trigger_list,
            pyIn t (pyLower "I am not satisfied") = true) ∨
          (pySplit "hi").length > 15 ∨
          (∃ t ∈ technical_terms, pyIn t (pyLower "hi") = true))) :=
  ⟨rfl, c2_needs_paid_model_iff "key" sdDefault rfl "hi" "I am not satisfied"⟩

/-- C4: when every chat-completion call the oracle could answer is falsy
(error, absent content or empty string), get_response still returns a string,
namely exactly the fixed apology string; no error propagates. -/
theorem c4_all_calls_fail_apology (api : ApiCall → Option String)
    (sd : SmartDeepSeek) (question previous_response : String)
    (system_prompt : Option String)
    (h : ∀ c, truthy (api c) = false) :
    (get_response api sd question previous_response system_prompt).fst = apology := by
  by_cases hesc : needs_paid_model sd question previous_response = true <;>
    simp [get_response, hesc, h, fun c => or_apology_falsy (h c)]

/-- Witness for C4 with the always-failing oracle. -/
theorem c4_all_calls_fail_apology_witness :
    (∀ c, truthy (apiNone c) = false) ∧
      (get_response apiNone sdDefault "hi" "" none).fst = apology :=
  ⟨fun _ => rfl, c4_all_calls_fail_apology apiNone sdDefault "hi" "" none (fun _ => rfl)⟩

/-- C5: on the escalated path, when the paid-tier call is falsy, get_response
issues exactly two calls: first the paid model, then the reason model, both
with the identical message list (same question and same system prompt), and
nothing after that. -/
theorem c5_paid_falls_back_to_reason_once (api : ApiCall → Option String)
    (sd : SmartDeepSeek) (question previous_response : String)
    (system_prompt : Option String)
    (hesc : needs_paid_model sd question previous_response = true)
    (hfail : truthy (api ⟨sd.paid_model, build_messages question system_prompt⟩) = false) :
    (get_response api sd question previous_response system_prompt).snd =
      [⟨sd.paid_model, build_messages question system_prompt⟩,
       ⟨sd.reason_model, build_messages question system_prompt⟩] := by
  simp [get_response, hesc, hfail]

/-- Witness for C5: dissatisfaction escalates a short question and the failing
oracle forces the paid-to-reason fallback, with the system prompt preserved. -/
theorem c5_paid_falls_back_to_reason_once_witness :
    needs_paid_model sdDefault "hi" "not satisfied" = true ∧
      (get_response apiNone sdDefault "hi" "not satisfied" (some "sys")).snd =
        [⟨sdDefault.paid_model, build_messages "hi" (some "sys")⟩,
         ⟨sdDefault.reason_model, build_messages "hi" (some "sys")⟩] :=
  ⟨by decide,
   c5_paid_falls_back_to_reason_once apiNone sdDefault "hi" "not satisfied" (some "sys")
     (by decide) rfl⟩

/-- C10: on the non-escalated path, when the single free-tier call is falsy,
get_response returns the apology immediately and the call list is exactly the
one free-tier call: the paid and reason tiers are never attempted. -/
theorem c10_free_failure_no_fallback (api : ApiCall → Option String)
    (sd : SmartDeepSeek) (question previous_response : String)
    (system_prompt : Option String)
    (hesc : needs_paid_model sd question previous_response = false)
    (hfail : truthy (api ⟨sd.free_model, build_messages question system_prompt⟩) = false) :
    get_response api sd question previous_response system_prompt =
      (apology, [⟨sd.free_model, build_messages question system_prompt⟩]) := by
  simp [get_response, hesc, or_apology_falsy hfail]

/-- Witness for C10: a plain short question with the failing oracle yields the
apology from the single free-tier call. -/
theorem c10_free_failure_no_fallback_witness :
    needs_paid_model sdDefault "hi" "" = false ∧
      get_response apiNone sdDefault "hi" "" none =
        (apology, [⟨sdDefault.free_model, build_messages "hi" none⟩]) :=
  ⟨by decide, c10_free_failure_no_fallback apiNone sdDefault "hi" "" none (by decide) rfl⟩

end CoxistAI

namespace CoxistAI

/-- C6: with an empty previous response, a question of at most 15
whitespace-split words and no technical trigger phrase produces exactly one
call, to the free-tier model; a question of more than 15 words makes the
first call go to the paid-tier model and no call ever uses the free-tier
model. -/
theorem c6_tier_selection (api : ApiCall → Option String) (k : String)
    (sd : SmartDeepSeek) (hk : mkSmartDeepSeek (some k) = Except.ok sd)
    (question : String) (system_prompt : Option String) :
    ((pySplit question).length ≤ 15 →
      technical_terms.any (fun term => pyIn term (pyLower question)) = false →
      (get_response api sd question "" system_prompt).snd =
        [⟨sd.free_model, build_messages question system_prompt⟩]) ∧
    ((pySplit question).length > 15 →
      (get_response api sd question "" system_prompt).snd.head? =
        some ⟨sd.paid_model, build_messages question system_prompt⟩ ∧
      ∀ c ∈ (get_response api sd question "" system_prompt).snd,
        c.model ≠ sd.free_model) := by
  rcases mkSmartDeepSeek_ok hk with rfl
  have hdis : dissatisfaction_trigger_list.any
      (fun trigger => pyIn trigger (pyLower "")) = false := by decide
  constructor
  · intro h1 h2
    have hesc : needs_paid_model
        { api_key := k
          free_model := "gpt-3.5-turbo"
          paid_model := "gpt-4o-mini"
          reason_model := "gpt-4o"
          complexity_threshold := 15
          dissatisfaction_triggers := dissatisfaction_trigger_list }
        question "" = false := by
      simp [needs_paid_model, hdis, h2, Nat.not_lt.mpr h1]
    simp [get_response, hesc]
  · intro h1
    have hesc : needs_paid_model
        { api_key := k
          free_model := "gpt-3.5-turbo"
          paid_model := "gpt-4o-mini"
          reason_model := "gpt-4o"
          complexity_threshold := 15
          dissatisfaction_triggers := dissatisfaction_trigger_list }
        question "" = true := by
      simp [needs_paid_model, hdis, h1]
    by_cases ht :
        truthy (api ⟨"gpt-4o-mini", build_messages question system_prompt⟩) = true
    · simp [get_response, hesc, ht]
    · rw [Bool.not_eq_true] at ht
      simp [get_response, hesc, ht]

/-- Witness for C6: "what is python" (3 words, no technical phrase) stays on
the free tier; a 16-word question starts on the paid tier. -/
theorem c6_tier_selection_witness :
    ((pySplit "what is python").length ≤ 15 ∧
      technical_terms.any (fun term => pyIn term (pyLower "what is python")) = false ∧
      (get_response apiNone sdDefault "what is python" "" none).snd =
        [⟨sdDefault.free_model, build_messages "what is python" none⟩]) ∧
    ((pySplit "a b c d e f g h i j k l m n o p").length > 15 ∧
      (get_response apiNone sdDefault "a b c d e f g h i j k l m n o p" "" none).snd.head? =
        some ⟨sdDefault.paid_model, build_messages "a b c d e f g h i j k l m n o p" none⟩) :=
  ⟨⟨by decide, by decide,
    (c6_tier_selection apiNone "key" sdDefault rfl "what is python" none).1
      (by decide) (by decide)⟩,
   ⟨by decide,
    ((c6_tier_selection apiNone "key" sdDefault rfl "a b c d e f g h i j k l m n o p" none).2
      (by decide)).1⟩⟩

/-- C8: constructing the router with an absent or empty credential yields the
configuration error, and construction succeeds exactly when a non-empty
credential is supplied. -/
theorem c8_construction_requires_credential :
    mkSmartDeepSeek none = Except.error "API key is required." ∧
      mkSmartDeepSeek (some "") = Except.error "API key is required." ∧
      ∀ cred : Option String,
        ((∃ sd, mkSmartDeepSeek cred = Except.ok sd) ↔ ∃ k, cred = some k ∧ k ≠ "") := by
  refine ⟨rfl, rfl, ?_⟩
  intro cred
  cases cred with
  | none => simp [mkSmartDeepSeek]
  | some k => by_cases h : k = "" <;> simp [mkSmartDeepSeek, h]

end CoxistAI
